import Mathlib

/-
  Verification development for the Brewin v3 tree-walking interpreter
  (src/p3/interpreterv3.py).

  The interpreter core under src/ is embedded shallowly below.  The
  collaborator modules that the core imports (env_v3.py, type_valuev3.py,
  intbase.py, brewparse.py) are not part of src/; their behaviour is
  modelled from the specification (its sections 3, 4, 6 and 7), and every
  such definition carries a doc comment starting with
  "Modelled from the spec:".

  The interpreter functions are total, driven by a fuel parameter; running
  out of fuel yields the distinguished error kind OUT_OF_FUEL, which no
  claim ever relies on (concrete programs are run with ample fuel).
-/

namespace BrewinV3

/-- The runtime type tags of type_valuev3.Type.
Modelled from the spec: tagged union over Int, Bool, String, Nil,
FunctionRef (section 3). -/
inductive Ty where
  | INT
  | BOOL
  | STRING
  | NIL
  | FUNC
deriving DecidableEq, Repr

/-- Error kinds.  NAME_ERROR and TYPE_ERROR are intbase.ErrorType members
raised via InterpreterBase.error.  FAULT models an uncaught host-level
(Python) exception such as ZeroDivisionError, AttributeError or KeyError
(spec section 7: the unmodeled fault class).  OUT_OF_FUEL is an artifact of
the fuel-bounded embedding only. -/
inductive ErrorType where
  | NAME_ERROR
  | TYPE_ERROR
  | FAULT
  | OUT_OF_FUEL
deriving DecidableEq, Repr

/-- Modelled from the spec: InterpreterBase.error raises a named interpreter
error that aborts the run unless a surrounding Python try/except catches it
(sections 6 and 7).  The embedding renders a raised error as the error case
of Except, and a bare except clause as catching every error case. -/
structure Err where
  kind : ErrorType
  msg : String
deriving DecidableEq, Repr

def nameError (msg : String) : Err := ⟨ErrorType.NAME_ERROR, msg⟩

def typeError (msg : String) : Err := ⟨ErrorType.TYPE_ERROR, msg⟩

def fault (msg : String) : Err := ⟨ErrorType.FAULT, msg⟩

def outOfFuel : Err := ⟨ErrorType.OUT_OF_FUEL, "fuel exhausted"⟩

/-- A formal parameter node: its name and whether its elem_type is
InterpreterBase.REFARG_DEF (by-reference) rather than a plain argument. -/
structure Param where
  name : String
  refArg : Bool
deriving DecidableEq, Repr

mutual
/-- Expression nodes dispatched by interpreterv3.__eval_expr (lines
169-197): nil/int/string/bool literals, lambda definitions, variable
references, call expressions, the binary operators of Interpreter.BIN_OPS,
unary negation and logical not. -/
inductive Expr where
  | nilLit
  | intLit (n : Int)
  | strLit (s : String)
  | boolLit (b : Bool)
  | lambdaDef (f : FuncDef)
  | var (name : String)
  | fcall (name : String) (args : List Expr)
  | binop (op : String) (op1 op2 : Expr)
  | neg (op1 : Expr)
  | notOp (op1 : Expr)
deriving BEq, Repr

/-- Statement nodes dispatched by interpreterv3.__run_statements (lines
85-94): call statements, assignments, return, if and while. -/
inductive Stmt where
  | fcallStmt (name : String) (args : List Expr)
  | assign (name : String) (expression : Expr)
  | ret (expression : Option Expr)
  | ifStmt (condition : Expr) (statements : List Stmt)
      (elseStatements : Option (List Stmt))
  | whileStmt (condition : Expr) (statements : List Stmt)
deriving BEq, Repr

/-- A function-definition node: name, formal parameters, body.  Lambda
nodes have the same shape; their name field is never consulted (the node
has no name field in the source, and .get of a missing field yields None,
which the embedding renders by never reading this field for lambdas). -/
inductive FuncDef where
  | mk (name : String) (args : List Param) (statements : List Stmt)
deriving BEq, Repr
end

def FuncDef.name : FuncDef → String
  | .mk n _ _ => n

def FuncDef.args : FuncDef → List Param
  | .mk _ a _ => a

def FuncDef.statements : FuncDef → List Stmt
  | .mk _ _ st => st

/-- Modelled from the spec: type_valuev3.Value is a tagged runtime value
(section 3).  In the tagged union an INT-typed value always carries an
integer payload, a BOOL-typed value a boolean payload, and so on, exactly
as every Value construction in the source does. -/
inductive Value where
  | int (n : Int)
  | bool (b : Bool)
  | str (s : String)
  | nil
  | func (f : FuncDef)
deriving BEq, Repr

/-- The runtime type tag of a Value (type_valuev3.Value.type()). -/
def tyOf : Value → Ty
  | .int _ => Ty.INT
  | .bool _ => Ty.BOOL
  | .str _ => Ty.STRING
  | .nil => Ty.NIL
  | .func _ => Ty.FUNC

/-- What the environment stores and __eval_expr returns: either a Value
object, or a raw function-definition AST node (the source stores raw nodes
for top-level functions via env.set(func_name, func_def) at line 52, and
__eval_expr's variable case returns them unchanged). -/
inductive StoredVal where
  | v (x : Value)
  | node (f : FuncDef)
deriving BEq, Repr

/-- Interpreter.NIL_VALUE (line 18). -/
def NIL_VALUE : StoredVal := .v .nil

/-- Python truthiness of a payload (bool(x)): 0, empty string and None are
falsy; every other payload, including any AST node, is truthy. -/
def truthy : Value → Bool
  | .int n => n != 0
  | .bool b => b
  | .str s => s != ""
  | .nil => false
  | .func _ => true

/-- Python equality test payload == 0 (also payload == False, which Python
evaluates identically on these payloads): true for the integer 0 and for
False, false for every other payload. -/
def valueEqZero : Value → Bool
  | .int n => n == 0
  | .bool b => !b
  | _ => false

/-- Python equality test payload == True: true for the integer 1 and for
True, false for every other payload. -/
def valueEqTrue : Value → Bool
  | .int n => n == 1
  | .bool b => b
  | _ => false

/-- Python == between two payloads: numeric across Int/Bool (True is 1 and
False is 0), structural within one type, false across unrelated types.
Equality of two function-definition nodes stands in for Python object
identity; no claim depends on function-value equality. -/
def pyEqVal : Value → Value → Bool
  | .int a, .int b => a == b
  | .int a, .bool b => a == (if b then (1 : Int) else 0)
  | .bool a, .int b => (if a then (1 : Int) else 0) == b
  | .bool a, .bool b => a == b
  | .str a, .str b => a == b
  | .nil, .nil => true
  | .func f, .func g => f == g
  | _, _ => false

/-- Python object identity probing of op_to_lambda[Type.FUNC]["=="] (lines
347-353): hasattr discrimination between raw AST nodes and Value objects,
then identity comparison of the definition nodes (structural equality of
nodes stands in for identity).  Non-function payloads compare unequal. -/
def funcIs : StoredVal → StoredVal → Bool
  | .node f, .node g => f == g
  | .v a, .v b =>
    match a, b with
    | .func f, .func g => f == g
    | _, _ => false
  | .v a, .node g =>
    match a with
    | .func f => f == g
    | _ => false
  | .node f, .v b =>
    match b with
    | .func g => f == g
    | _ => false

/-! ## The operator registry (interpreterv3.__setup_ops, lines 253-372)

Each entry takes the left operand as a Value (the dispatch at line 225
keys on the left operand's runtime type) and the right operand as a
StoredVal.  A raw AST node on the right has no type() or value() method,
so the table entries that call them raise an AttributeError, modelled as
FAULT. -/

/-- op_to_lambda[Type.INT]["+"] (lines 257-259). -/
def intPlus : Value → StoredVal → Except Err StoredVal
  | .int n, .v yv =>
    match yv with
    | .int m => .ok (.v (.int (n + m)))
    | _ => .ok (.v (.int (if truthy yv then n + 1 else n)))
  | _, .node _ => .error (fault "AttributeError: type")
  | _, _ => .error (fault "unreachable: left operand dispatched as INT")

/-- op_to_lambda[Type.INT]["-"] (lines 260-262). -/
def intMinus : Value → StoredVal → Except Err StoredVal
  | .int n, .v yv =>
    match yv with
    | .int m => .ok (.v (.int (n - m)))
    | _ => .ok (.v (.int (if truthy yv then n - 1 else n)))
  | _, .node _ => .error (fault "AttributeError: type")
  | _, _ => .error (fault "unreachable: left operand dispatched as INT")

/-- op_to_lambda[Type.INT]["*"] (lines 263-265). -/
def intTimes : Value → StoredVal → Except Err StoredVal
  | .int n, .v yv =>
    match yv with
    | .int m => .ok (.v (.int (n * m)))
    | _ => .ok (.v (.int (if truthy yv then n * 1 else 0)))
  | _, .node _ => .error (fault "AttributeError: type")
  | _, _ => .error (fault "unreachable: left operand dispatched as INT")

/-- op_to_lambda[Type.INT]["/"] (lines 266-268): floor division when the
right operand is typed Int, with a ZeroDivisionError fault on a zero
divisor; a Bool right operand is guarded (true divides by 1, false yields
0 without dividing). -/
def intDiv : Value → StoredVal → Except Err StoredVal
  | .int n, .v yv =>
    match yv with
    | .int m =>
      if m == 0 then .error (fault "ZeroDivisionError")
      else .ok (.v (.int (Int.fdiv n m)))
    | _ =>
      if truthy yv then .ok (.v (.int (Int.fdiv n 1)))
      else .ok (.v (.int 0))
  | _, .node _ => .error (fault "AttributeError: type")
  | _, _ => .error (fault "unreachable: left operand dispatched as INT")

/-- op_to_lambda[Type.INT]["=="] (lines 269-272): against a Bool right
operand, truthiness of the Int against the Bool; against any other right
operand, truthiness equality (both payloads zero or both nonzero). -/
def intEq : Value → StoredVal → Except Err StoredVal
  | .int n, .v yv =>
    match yv with
    | .bool _ =>
      .ok (.v (.bool ((tyOf (.int n) == tyOf yv || tyOf yv == Ty.BOOL) &&
        ((n != 0 && valueEqTrue yv) || (n == 0 && valueEqZero yv)))))
    | _ =>
      .ok (.v (.bool ((n != 0 && !valueEqZero yv) || (n == 0 && valueEqZero yv))))
  | _, .node _ => .error (fault "AttributeError: type")
  | _, _ => .error (fault "unreachable: left operand dispatched as INT")

/-- op_to_lambda[Type.INT]["!="] (lines 273-275). -/
def intNe : Value → StoredVal → Except Err StoredVal
  | .int n, .v yv =>
    .ok (.v (.bool ((tyOf (.int n) != tyOf yv && tyOf yv != Ty.BOOL) ||
      ((n == 0 && valueEqTrue yv) || (n != 0 && valueEqZero yv)))))
  | _, .node _ => .error (fault "AttributeError: type")
  | _, _ => .error (fault "unreachable: left operand dispatched as INT")

/-- op_to_lambda[Type.INT]["&&"] (lines 276-278): bool(x and y) under the
type guard of the source expression. -/
def intAnd : Value → StoredVal → Except Err StoredVal
  | .int n, .v yv =>
    .ok (.v (.bool ((tyOf (.int n) == tyOf yv || tyOf yv == Ty.BOOL) &&
      (n != 0 && truthy yv))))
  | _, .node _ => .error (fault "AttributeError: type")
  | _, _ => .error (fault "unreachable: left operand dispatched as INT")

/-- op_to_lambda[Type.INT]["||"] (lines 279-281). -/
def intOr : Value → StoredVal → Except Err StoredVal
  | .int n, .v yv =>
    .ok (.v (.bool ((tyOf (.int n) == tyOf yv || tyOf yv == Ty.BOOL) &&
      (n != 0 || truthy yv))))
  | _, .node _ => .error (fault "AttributeError: type")
  | _, _ => .error (fault "unreachable: left operand dispatched as INT")

/-- op_to_lambda[Type.INT] relational entries (lines 282-293): plain
x.value() cmp y.value().  Python compares Int against Bool numerically and
faults on any other right payload; the same-type pre-check makes only the
Int case reachable. -/
def intCmp (cmp : Int → Int → Bool) : Value → StoredVal → Except Err StoredVal
  | .int n, .v yv =>
    match yv with
    | .int m => .ok (.v (.bool (cmp n m)))
    | .bool b => .ok (.v (.bool (cmp n (if b then 1 else 0))))
    | _ => .error (fault "TypeError: unorderable payloads")
  | _, .node _ => .error (fault "AttributeError: value")
  | _, _ => .error (fault "unreachable: left operand dispatched as INT")

/-- op_to_lambda[Type.STRING]["+"] (lines 296-298): x.value() + y.value();
Python concatenates two strings and faults on any other right payload. -/
def strPlus : Value → StoredVal → Except Err StoredVal
  | .str a, .v yv =>
    match yv with
    | .str b => .ok (.v (.str (a ++ b)))
    | _ => .error (fault "TypeError: can only concatenate str to str")
  | _, .node _ => .error (fault "AttributeError: value")
  | _, _ => .error (fault "unreachable: left operand dispatched as STRING")

/-- op_to_lambda[Type.STRING]["=="] (lines 299-301): Python payload
equality. -/
def strEq : Value → StoredVal → Except Err StoredVal
  | .str a, .v yv => .ok (.v (.bool (pyEqVal (.str a) yv)))
  | _, .node _ => .error (fault "AttributeError: value")
  | _, _ => .error (fault "unreachable: left operand dispatched as STRING")

/-- op_to_lambda[Type.STRING]["!="] (lines 302-304). -/
def strNe : Value → StoredVal → Except Err StoredVal
  | .str a, .v yv => .ok (.v (.bool (!pyEqVal (.str a) yv)))
  | _, .node _ => .error (fault "AttributeError: value")
  | _, _ => .error (fault "unreachable: left operand dispatched as STRING")

/-- op_to_lambda[Type.BOOL]["&&"] (lines 307-309).  Note the result keeps
x.type(), which is BOOL. -/
def boolAnd : Value → StoredVal → Except Err StoredVal
  | .bool a, .v yv =>
    .ok (.v (.bool ((tyOf (.bool a) == tyOf yv || tyOf yv == Ty.INT) &&
      (a && truthy yv))))
  | _, .node _ => .error (fault "AttributeError: type")
  | _, _ => .error (fault "unreachable: left operand dispatched as BOOL")

/-- op_to_lambda[Type.BOOL]["||"] (lines 310-312). -/
def boolOr : Value → StoredVal → Except Err StoredVal
  | .bool a, .v yv =>
    .ok (.v (.bool ((tyOf (.bool a) == tyOf yv || tyOf yv == Ty.INT) &&
      (a || truthy yv))))
  | _, .node _ => .error (fault "AttributeError: type")
  | _, _ => .error (fault "unreachable: left operand dispatched as BOOL")

/-- op_to_lambda[Type.BOOL]["=="] (lines 313-315). -/
def boolEq : Value → StoredVal → Except Err StoredVal
  | .bool a, .v yv =>
    .ok (.v (.bool ((tyOf (.bool a) == tyOf yv || tyOf yv == Ty.INT) &&
      ((a && !valueEqZero yv) || (!a && valueEqZero yv)))))
  | _, .node _ => .error (fault "AttributeError: type")
  | _, _ => .error (fault "unreachable: left operand dispatched as BOOL")

/-- op_to_lambda[Type.BOOL]["!="] (lines 316-318). -/
def boolNe : Value → StoredVal → Except Err StoredVal
  | .bool a, .v yv =>
    .ok (.v (.bool ((tyOf (.bool a) != tyOf yv && tyOf yv != Ty.INT) ||
      ((a && valueEqZero yv) || (!a && !valueEqZero yv)))))
  | _, .node _ => .error (fault "AttributeError: type")
  | _, _ => .error (fault "unreachable: left operand dispatched as BOOL")

/-- op_to_lambda[Type.BOOL]["+"] (lines 319-325): the Bool is numeric
(true is 1, false is 0), Int result. -/
def boolPlus : Value → StoredVal → Except Err StoredVal
  | .bool a, .v yv =>
    match yv with
    | .int m => .ok (.v (.int (if a then 1 + m else m)))
    | _ =>
      if a && truthy yv then .ok (.v (.int (1 + 1)))
      else
        match yv with
        | .bool b => .ok (.v (.int (if xor a b then 1 else 0)))
        | _ => .error (fault "TypeError: unsupported xor payload")
  | _, .node _ => .error (fault "AttributeError: type")
  | _, _ => .error (fault "unreachable: left operand dispatched as BOOL")

/-- op_to_lambda[Type.BOOL]["-"] (lines 326-333). -/
def boolMinus : Value → StoredVal → Except Err StoredVal
  | .bool a, .v yv =>
    match yv with
    | .int m => .ok (.v (.int (if a then 1 - m else (-1) * m)))
    | _ =>
      if a && truthy yv then .ok (.v (.int 0))
      else if a && !truthy yv then .ok (.v (.int 1))
      else if !a && truthy yv then .ok (.v (.int (-1)))
      else .ok (.v (.int 0))
  | _, .node _ => .error (fault "AttributeError: type")
  | _, _ => .error (fault "unreachable: left operand dispatched as BOOL")

/-- op_to_lambda[Type.BOOL]["*"] (lines 334-339). -/
def boolTimes : Value → StoredVal → Except Err StoredVal
  | .bool a, .v yv =>
    match yv with
    | .int m => .ok (.v (.int (if a then m else 0)))
    | _ =>
      if a && truthy yv then .ok (.v (.int 1))
      else .ok (.v (.int 0))
  | _, .node _ => .error (fault "AttributeError: type")
  | _, _ => .error (fault "unreachable: left operand dispatched as BOOL")

/-- op_to_lambda[Type.BOOL]["/"] (lines 340-345): 1 // y for a true left
and Int right (faulting on 0), 0 for a false left and Int right, and
x.value() // y.value() on the remaining Bool/Bool combinations (faulting
when the right is false). -/
def boolDiv : Value → StoredVal → Except Err StoredVal
  | .bool a, .v yv =>
    match yv with
    | .int m =>
      if a then
        if m == 0 then .error (fault "ZeroDivisionError")
        else .ok (.v (.int (Int.fdiv 1 m)))
      else .ok (.v (.int 0))
    | _ =>
      if a && truthy yv then .ok (.v (.int 1))
      else
        match yv with
        | .bool true => .ok (.v (.int 0))
        | .bool false => .error (fault "ZeroDivisionError")
        | _ => .error (fault "TypeError: unsupported floordiv payload")
  | _, .node _ => .error (fault "AttributeError: type")
  | _, _ => .error (fault "unreachable: left operand dispatched as BOOL")

/-- op_to_lambda[Type.FUNC]["=="] (lines 347-353). -/
def funcEq : Value → StoredVal → Except Err StoredVal
  | x, y => .ok (.v (.bool (funcIs (.v x) y)))

/-- op_to_lambda[Type.FUNC]["!="] (lines 354-360). -/
def funcNe : Value → StoredVal → Except Err StoredVal
  | x, y => .ok (.v (.bool (!funcIs (.v x) y)))

/-- op_to_lambda[Type.NIL]["=="] (lines 363-367): hasattr-probing
comparison of type tags and payloads; a raw node on the right compares
unequal on both disjuncts. -/
def nilEq : Value → StoredVal → Except Err StoredVal
  | .nil, .v yv => .ok (.v (.bool (Ty.NIL == tyOf yv || pyEqVal .nil yv)))
  | .nil, .node _ => .ok (.v (.bool false))
  | _, _ => .error (fault "unreachable: left operand dispatched as NIL")

/-- op_to_lambda[Type.NIL]["!="] (lines 368-372). -/
def nilNe : Value → StoredVal → Except Err StoredVal
  | .nil, .v yv => .ok (.v (.bool (Ty.NIL != tyOf yv || !pyEqVal .nil yv)))
  | .nil, .node _ => .ok (.v (.bool true))
  | _, _ => .error (fault "unreachable: left operand dispatched as NIL")

/-- The operator registry op_to_lambda as built by __setup_ops: keyed by
the left operand's runtime type and the operator symbol; a missing entry
corresponds to a KeyError at the lookup of line 225. -/
def opToLambda : Ty → String → Option (Value → StoredVal → Except Err StoredVal)
  | Ty.INT, "+" => some intPlus
  | Ty.INT, "-" => some intMinus
  | Ty.INT, "*" => some intTimes
  | Ty.INT, "/" => some intDiv
  | Ty.INT, "==" => some intEq
  | Ty.INT, "!=" => some intNe
  | Ty.INT, "&&" => some intAnd
  | Ty.INT, "||" => some intOr
  | Ty.INT, "<" => some (intCmp (fun a b => a < b))
  | Ty.INT, "<=" => some (intCmp (fun a b => a <= b))
  | Ty.INT, ">" => some (intCmp (fun a b => a > b))
  | Ty.INT, ">=" => some (intCmp (fun a b => a >= b))
  | Ty.STRING, "+" => some strPlus
  | Ty.STRING, "==" => some strEq
  | Ty.STRING, "!=" => some strNe
  | Ty.BOOL, "&&" => some boolAnd
  | Ty.BOOL, "||" => some boolOr
  | Ty.BOOL, "==" => some boolEq
  | Ty.BOOL, "!=" => some boolNe
  | Ty.BOOL, "+" => some boolPlus
  | Ty.BOOL, "-" => some boolMinus
  | Ty.BOOL, "*" => some boolTimes
  | Ty.BOOL, "/" => some boolDiv
  | Ty.FUNC, "==" => some funcEq
  | Ty.FUNC, "!=" => some funcNe
  | Ty.NIL, "==" => some nilEq
  | Ty.NIL, "!=" => some nilNe
  | _, _ => none

/-- interpreterv3.__compatible_types (lines 232-240): the equality family
is always compatible; the arithmetic and logical family requires Int or
Bool on both sides (evaluating the left type first, so a raw node faults
with AttributeError before the right side is inspected); every other
operator requires identical runtime types. -/
def compatibleTypes (oper : String) (obj1 obj2 : StoredVal) : Except Err Bool :=
  if oper == "==" || oper == "!=" then .ok true
  else if oper == "&&" || oper == "||" || oper == "+" || oper == "-" ||
      oper == "*" || oper == "/" then
    match obj1 with
    | .node _ => .error (fault "AttributeError: type")
    | .v x =>
      if !(tyOf x == Ty.BOOL || tyOf x == Ty.INT) then .ok false
      else
        match obj2 with
        | .node _ => .error (fault "AttributeError: type")
        | .v y => .ok (tyOf y == Ty.BOOL || tyOf y == Ty.INT)
  else
    match obj1, obj2 with
    | .node _, _ => .error (fault "AttributeError: type")
    | .v _, .node _ => .error (fault "AttributeError: type")
    | .v x, .v y => .ok (tyOf x == tyOf y)

/-- The dispatch of interpreterv3.__eval_op (lines 201-230), applied to the
two already-evaluated operands.  A raw function-definition node on the left
(elem_type probing at lines 211-223) admits only the Type.FUNC equality
operators; a Value on the left indexes op_to_lambda by its runtime type,
where a missing entry is an uncaught KeyError. -/
def evalOp (op : String) (l r : StoredVal) : Except Err StoredVal := do
  let compat ← compatibleTypes op l r
  if !compat then
    .error (typeError "Incompatible types for operation")
  else
    match l with
    | .node _ =>
      if op == "==" then .ok (.v (.bool (funcIs l r)))
      else if op == "!=" then .ok (.v (.bool (!funcIs l r)))
      else .error (typeError "Incompatible operator for type func")
    | .v x =>
      match opToLambda (tyOf x) op with
      | some f => f x r
      | none => .error (fault "KeyError: operator not in table")

/-- interpreterv3.__eval_unary for NEG_DEF (line 195): Int only, payload
times -1. -/
def evalNeg (sv : StoredVal) : Except Err StoredVal :=
  match sv with
  | .node _ => .error (fault "AttributeError: type")
  | .v (.int n) => .ok (.v (.int ((-1) * n)))
  | .v _ => .error (typeError "Incompatible type for neg operation")

/-- interpreterv3.__eval_unary for NOT_DEF (line 196): Bool or Int, result
bool(not payload). -/
def evalNot (sv : StoredVal) : Except Err StoredVal :=
  match sv with
  | .node _ => .error (fault "AttributeError: type")
  | .v (.int n) => .ok (.v (.bool (n == 0)))
  | .v (.bool b) => .ok (.v (.bool (!b)))
  | .v _ => .error (typeError "Incompatible type for not operation")

/-! ## The environment (EnvironmentManager)

Modelled from the spec: env_v3.py is not under src/.  Section 3 specifies a
stack of frames mapping variable names to values, searched top-down by
lookups, with assignment replacing the value in the innermost frame that
already defines the name; a parallel alias stack, pushed and popped in
lock-step with variable frames on function entry and exit, records per
reference-bound parameter name the caller-side variable name it aliases.
Assignment to a name no frame defines creates the binding in the top frame
(the spec's own example programs assign to fresh variables, and setup
stores the top-level function names via env.set before any push).  The
stack starts with a single global frame.  Alias lookups consult the top
alias frame, the one belonging to the current call. -/

abbrev Frame := List (String × StoredVal)

abbrev RefFrame := List (String × Option String)

/-- Modelled from the spec: interpreter state: the variable frame stack and
alias frame stack of the EnvironmentManager (innermost frame first), plus
the line-oriented output sink and input source of intbase (section 6). -/
structure St where
  frames : List Frame
  refFrames : List RefFrame
  output : List String
  input : List String
deriving Repr

/-- Lookup in an association list (first match). -/
def lookupAssoc {α : Type} (k : String) (l : List (String × α)) : Option α :=
  (l.find? (fun p => p.1 == k)).map (fun p => p.2)

/-- Update-or-append in an association list (Python dict assignment). -/
def updateAssoc {α : Type} (k : String) (v : α) :
    List (String × α) → List (String × α)
  | [] => [(k, v)]
  | (k2, w) :: rest =>
    if k2 == k then (k2, v) :: rest else (k2, w) :: updateAssoc k v rest

/-- Modelled from the spec: lookups search frames top-down until found
(section 3). -/
def envGetFrames (name : String) : List Frame → Option StoredVal
  | [] => none
  | f :: rest =>
    match lookupAssoc name f with
    | some v => some v
    | none => envGetFrames name rest

def envGet (s : St) (name : String) : Option StoredVal :=
  envGetFrames name s.frames

/-- Modelled from the spec: set replaces the value in the innermost frame
that already defines the name; when no frame defines it, the binding is
created in the top frame (section 3 and the assignment statements of the
section 8 example programs).  The empty-stack case never arises: the stack
always holds at least the global frame. -/
def setVarFrames (name : String) (v : StoredVal) : List Frame → List Frame
  | [] => []
  | f :: rest =>
    if (lookupAssoc name f).isSome then updateAssoc name v f :: rest
    else if (envGetFrames name rest).isSome then f :: setVarFrames name v rest
    else updateAssoc name v f :: rest

def setVar (s : St) (name : String) (v : StoredVal) : St :=
  { s with frames := setVarFrames name v s.frames }

/-- Modelled from the spec: create binds a name in the top frame (call
binding, section 4.2 step 3).  The empty-stack case never arises. -/
def createVar (s : St) (name : String) (v : StoredVal) : St :=
  match s.frames with
  | [] => s
  | f :: rest => { s with frames := updateAssoc name v f :: rest }

def pushFrame (s : St) : St := { s with frames := [] :: s.frames }

def popFrame (s : St) : St := { s with frames := s.frames.tail }

def refPush (s : St) : St := { s with refFrames := [] :: s.refFrames }

def refPop (s : St) : St := { s with refFrames := s.refFrames.tail }

/-- Modelled from the spec: the alias recorded for a name in the current
call's alias frame, or none when the name is not an active reference alias
(a reference formal whose actual had no name maps to none as well). -/
def getRef (s : St) (name : String) : Option String :=
  match s.refFrames with
  | [] => none
  | rf :: _ =>
    match lookupAssoc name rf with
    | some t => t
    | none => none

/-- Modelled from the spec: register in the current alias frame that a
formal name aliases the given caller-side variable name (section 4.2 step
3).  The empty-stack case never arises. -/
def refCreate (s : St) (name : String) (target : Option String) : St :=
  match s.refFrames with
  | [] => s
  | rf :: rest => { s with refFrames := updateAssoc name target rf :: rest }

/-- Modelled from the spec: mirror a write through an active alias onto the
aliased caller-side variable (section 3 assignment rule, section 4.2 side
effect). -/
def refSet (s : St) (name : String) (v : StoredVal) : St :=
  match getRef s name with
  | some t => setVar s t v
  | none => s

/-! ## The function table (interpreterv3.__set_up_function_table) -/

/-- func_name_to_ast: function name to arity bucket to definition node. -/
abbrev FuncTable := List (String × List (Nat × FuncDef))

/-- Update-or-append in a Nat-keyed association list (the arity buckets). -/
def updateBucket (k : Nat) (v : FuncDef) :
    List (Nat × FuncDef) → List (Nat × FuncDef)
  | [] => [(k, v)]
  | (k2, w) :: rest =>
    if k2 == k then (k2, v) :: rest else (k2, w) :: updateBucket k v rest

def lookupBucket (k : Nat) (l : List (Nat × FuncDef)) : Option FuncDef :=
  (l.find? (fun p => p.1 == k)).map (fun p => p.2)

/-- The initial state: one empty global frame, no alias frames, no output,
the given input lines. -/
def initSt (inp : List String) : St :=
  { frames := [[]], refFrames := [], output := [], input := inp }

/-- interpreterv3.__set_up_function_table (lines 38-52): bucket every
top-level definition by name and arity (later same-name same-arity
definitions silently overwrite), and additionally store the raw definition
node in the environment under the function's name -- but only for the
first definition of each name (the dup flag). -/
def setUpFunctionTable (funcs : List FuncDef) (inp : List String) :
    FuncTable × St :=
  funcs.foldl
    (fun acc fd =>
      let T := acc.1
      let s := acc.2
      let dup := (lookupAssoc fd.name T).isSome
      let buckets := (lookupAssoc fd.name T).getD []
      let T2 := updateAssoc fd.name (updateBucket fd.args.length fd buckets) T
      let s2 := if dup then s else setVar s fd.name (.node fd)
      (T2, s2))
    ([], initSt inp)

/-- interpreterv3.__get_func_by_name (lines 54-77).  A name missing from
the function table is treated first-class: the environment is consulted;
a stored raw definition node redirects resolution to its own name's
buckets, but a first-class resolution of a name with more than one arity
bucket is rejected with a NameError before the arity is even checked; a
stored Value has no get method, so the except clause returns its payload,
and the caller's immediate .get of a non-node payload raises an
AttributeError (rendered here as the FAULT it becomes).  A resolution
directly through the table checks only that the argument count has a
bucket. -/
def getFuncByName (T : FuncTable) (s : St) (name : String) (numParams : Nat) :
    Except Err FuncDef :=
  match lookupAssoc name T with
  | some buckets =>
    match lookupBucket numParams buckets with
    | some fd => .ok fd
    | none => .error (nameError "Function taking that many params not found")
  | none =>
    match envGet s name with
    | none => .error (nameError "Function not found")
    | some (.node fd) =>
      match lookupAssoc fd.name T with
      | none => .error (fault "KeyError: name not in function table")
      | some buckets =>
        if buckets.length > 1 then
          .error (nameError "Function has multiple definitions, must specify number of parameters")
        else
          match lookupBucket numParams buckets with
          | some fd2 => .ok fd2
          | none =>
            .error (nameError "Function taking that many params not found")
    | some (.v val) =>
      match val with
      | .func fd => .ok fd
      | _ => .error (fault "AttributeError: get")

/-- The name field of an actual-argument node, as read by
actual_ast.get of the name field at line 131: variable and call nodes have
one; every other node kind yields None. -/
def exprName : Expr → Option String
  | .var n => some n
  | .fcall n _ => some n
  | _ => none

/-- interpreterv3.ExecStatus (lines 10-12). -/
inductive ExecStatus where
  | CONTINUE
  | RETURN
deriving DecidableEq, Repr

/-- interpreterv3.__do_if and __do_while condition handling (lines 377-383
and 401-407): an Int condition is coerced to Bool by a nonzero test, a
Bool condition is used as is, anything else is a TypeError; a raw node has
no type method and faults. -/
def coerceCond (sv : StoredVal) : Except Err Bool :=
  match sv with
  | .node _ => .error (fault "AttributeError: type")
  | .v (.int m) => .ok (m != 0)
  | .v (.bool b) => .ok b
  | .v _ => .error (typeError "Incompatible type for condition")

/-- Modelled from the spec: type_valuev3.get_printable converts a value to
display text (section 4.2).  Int, String and Bool values have display
text; for nil and function values no display text is specified and the
common implementation yields None, whose concatenation into the output
line faults -- no claim depends on those cases.  A raw node has no type
method and faults. -/
def getPrintable (sv : StoredVal) : Except Err String :=
  match sv with
  | .v (.int n) => .ok (toString n)
  | .v (.str s) => .ok s
  | .v (.bool b) => .ok (if b then "true" else "false")
  | .v .nil => .error (fault "TypeError: cannot concatenate None")
  | .v (.func _) => .error (fault "TypeError: cannot concatenate None")
  | .node _ => .error (fault "AttributeError: type")

mutual

/-- interpreterv3.__eval_expr (lines 169-197). -/
def evalExpr (fuel : Nat) (T : FuncTable) (e : Expr) (s : St) :
    Except Err (StoredVal × St) :=
  match fuel with
  | 0 => .error outOfFuel
  | f + 1 =>
    match e with
    | .nilLit => .ok (NIL_VALUE, s)
    | .intLit n => .ok (.v (.int n), s)
    | .strLit t => .ok (.v (.str t), s)
    | .boolLit b => .ok (.v (.bool b), s)
    | .lambdaDef fd => .ok (.v (.func fd), s)
    | .var name =>
      match envGet s name with
      | some val => .ok (val, s)
      | none => .error (nameError "Variable not found")
    | .fcall name args => callFunc f T name args s
    | .binop op e1 e2 => do
      let (l, s1) ← evalExpr f T e1 s
      let (r, s2) ← evalExpr f T e2 s1
      let v ← evalOp op l r
      .ok (v, s2)
    | .neg e1 => do
      let (val, s1) ← evalExpr f T e1 s
      let v ← evalNeg val
      .ok (v, s1)
    | .notOp e1 => do
      let (val, s1) ← evalExpr f T e1 s
      let v ← evalNot val
      .ok (v, s1)
termination_by structural fuel

/-- interpreterv3.__call_func (lines 103-137).  The print and input
builtins are intercepted by name.  Resolution and the read of the resolved
node's formals sit in a try whose bare except converts any raised error
into a TypeError reading "Function call not found".  The callee's variable
frame and alias frame are pushed BEFORE the actual arguments are
evaluated; each actual is then evaluated and bound (deep copy of an
immutable value is the identity) interleaved, in order; a reference formal
additionally records the actual's name field as its alias target.  The
body runs as a statement sequence; the alias frame and then the variable
frame are popped, and the body's return value is the call's result
whatever the status was. -/
def callFunc (fuel : Nat) (T : FuncTable) (name : String) (args : List Expr)
    (s : St) : Except Err (StoredVal × St) :=
  match fuel with
  | 0 => .error outOfFuel
  | f + 1 =>
    if name == "print" then callPrint f T args "" s
    else if name == "inputi" || name == "inputs" then callInput f T name args s
    else
      match getFuncByName T s name args.length with
      | .error _ => .error (typeError "Function call not found")
      | .ok fd =>
        if args.length != fd.args.length then
          .error (nameError "Function with that many args not found")
        else do
          let s1 := refPush (pushFrame s)
          let s2 ← bindArgs f T (fd.args.zip args) s1
          let (r, s3) ← runStatements f T fd.statements s2
          .ok (r.2, popFrame (refPop s3))
termination_by structural fuel

/-- The argument-binding loop of __call_func (lines 126-133): evaluate the
actual (in the state that already holds the callee's new frames), deep
copy, create the formal in the top frame, and for a reference formal also
record the alias target. -/
def bindArgs (fuel : Nat) (T : FuncTable) (pairs : List (Param × Expr))
    (s : St) : Except Err St :=
  match fuel with
  | 0 => .error outOfFuel
  | f + 1 =>
    match pairs with
    | [] => .ok s
    | (p, a) :: rest => do
      let (result, s1) ← evalExpr f T a s
      let s2 := createVar s1 p.name result
      let s3 := if p.refArg then refCreate s2 p.name (exprName a) else s2
      bindArgs f T rest s3
termination_by structural fuel

/-- interpreterv3.__call_print (lines 139-145): evaluate each argument,
concatenate the display texts, emit one output line, return NIL. -/
def callPrint (fuel : Nat) (T : FuncTable) (args : List Expr) (acc : String)
    (s : St) : Except Err (StoredVal × St) :=
  match fuel with
  | 0 => .error outOfFuel
  | f + 1 =>
    match args with
    | [] => .ok (NIL_VALUE, { s with output := s.output ++ [acc] })
    | a :: rest => do
      let (result, s1) ← evalExpr f T a s
      let p ← getPrintable result
      callPrint f T rest (acc ++ p) s1
termination_by structural fuel

/-- interpreterv3.__call_input (lines 147-160): an optional prompt
argument is printed; more than one argument is a NameError; one input line
is consumed and parsed as an integer for inputi (a malformed or missing
line is a host fault) or kept as text for inputs. -/
def callInput (fuel : Nat) (T : FuncTable) (name : String) (args : List Expr)
    (s : St) : Except Err (StoredVal × St) :=
  match fuel with
  | 0 => .error outOfFuel
  | f + 1 => do
    let s1 ←
      match args with
      | [] => pure s
      | [a] => do
        let (result, s2) ← evalExpr f T a s
        let p ← getPrintable result
        pure { s2 with output := s2.output ++ [p] }
      | _ =>
        .error (nameError "No inputi() function that takes > 1 parameter")
    match s1.input with
    | [] => .error (fault "TypeError: no input line available")
    | line :: rest =>
      let s2 := { s1 with input := rest }
      if name == "inputi" then
        match line.toInt? with
        | some i => .ok (.v (.int i), s2)
        | none => .error (fault "ValueError: invalid int literal")
      else .ok (.v (.str line), s2)
termination_by structural fuel

/-- interpreterv3.__run_statements (lines 79-101): push one scope frame,
run the sequence, pop the frame exactly once on either exit path (early
RETURN at line 97, or the fall-through CONTINUE at line 100). -/
def runStatements (fuel : Nat) (T : FuncTable) (stmts : List Stmt) (s : St) :
    Except Err ((ExecStatus × StoredVal) × St) :=
  match fuel with
  | 0 => .error outOfFuel
  | f + 1 => do
    let (r, s1) ← execSeq f T stmts (pushFrame s)
    .ok (r, popFrame s1)
termination_by structural fuel

/-- The statement loop of __run_statements (lines 81-101): statements run
in order; the first RETURN status stops the loop, skipping the remaining
statements; falling off the end yields CONTINUE with NIL. -/
def execSeq (fuel : Nat) (T : FuncTable) (stmts : List Stmt) (s : St) :
    Except Err ((ExecStatus × StoredVal) × St) :=
  match fuel with
  | 0 => .error outOfFuel
  | f + 1 =>
    match stmts with
    | [] => .ok ((ExecStatus.CONTINUE, NIL_VALUE), s)
    | st :: rest => do
      let (r, s1) ← execStmt f T st s
      match r.1 with
      | ExecStatus.RETURN => .ok (r, s1)
      | ExecStatus.CONTINUE => execSeq f T rest s1
termination_by structural fuel

/-- One statement dispatch (lines 85-94): a call statement discards its
result; an assignment is __assign (lines 162-167: set, then mirror through
an active alias); return is __do_return (lines 416-421); if and while
delegate. -/
def execStmt (fuel : Nat) (T : FuncTable) (st : Stmt) (s : St) :
    Except Err ((ExecStatus × StoredVal) × St) :=
  match fuel with
  | 0 => .error outOfFuel
  | f + 1 =>
    match st with
    | .fcallStmt name args => do
      let (_, s1) ← callFunc f T name args s
      .ok ((ExecStatus.CONTINUE, NIL_VALUE), s1)
    | .assign name e => do
      let (valueObj, s1) ← evalExpr f T e s
      let s2 := setVar s1 name valueObj
      let s3 :=
        match getRef s2 name with
        | some _ => refSet s2 name valueObj
        | none => s2
      .ok ((ExecStatus.CONTINUE, NIL_VALUE), s3)
    | .ret oe =>
      match oe with
      | none => .ok ((ExecStatus.RETURN, NIL_VALUE), s)
      | some e => do
        let (valueObj, s1) ← evalExpr f T e s
        .ok ((ExecStatus.RETURN, valueObj), s1)
    | .ifStmt c thenS elseS => doIf f T c thenS elseS s
    | .whileStmt c body => doWhile f T c body s
termination_by structural fuel

/-- interpreterv3.__do_if (lines 374-394): coerce the condition, run the
chosen branch and propagate its status, or continue when the condition is
false and no else branch exists. -/
def doIf (fuel : Nat) (T : FuncTable) (c : Expr) (thenS : List Stmt)
    (elseS : Option (List Stmt)) (s : St) :
    Except Err ((ExecStatus × StoredVal) × St) :=
  match fuel with
  | 0 => .error outOfFuel
  | f + 1 => do
    let (cv, s1) ← evalExpr f T c s
    let b ← coerceCond cv
    if b then runStatements f T thenS s1
    else
      match elseS with
      | some els => runStatements f T els s1
      | none => .ok ((ExecStatus.CONTINUE, NIL_VALUE), s1)
termination_by structural fuel

/-- interpreterv3.__do_while (lines 396-414): re-evaluate and coerce the
condition before each iteration; while it holds, run the body, an early
RETURN from which short-circuits the loop; a false condition yields
CONTINUE with NIL. -/
def doWhile (fuel : Nat) (T : FuncTable) (c : Expr) (body : List Stmt)
    (s : St) : Except Err ((ExecStatus × StoredVal) × St) :=
  match fuel with
  | 0 => .error outOfFuel
  | f + 1 => do
    let (cv, s1) ← evalExpr f T c s
    let b ← coerceCond cv
    if b then do
      let (r, s2) ← runStatements f T body s1
      match r.1 with
      | ExecStatus.RETURN => .ok (r, s2)
      | ExecStatus.CONTINUE => doWhile f T c body s2
    else .ok ((ExecStatus.CONTINUE, NIL_VALUE), s1)
termination_by structural fuel

end

/-- A program is the node tree's top-level function list. -/
abbrev Program := List FuncDef

/-- interpreterv3.run (lines 31-36): build the function table and the
global registrations, resolve the zero-argument main, run its body. -/
def run (fuel : Nat) (p : Program) (inp : List String) : Except Err St :=
  let TS := setUpFunctionTable p inp
  match getFuncByName TS.1 TS.2 "main" 0 with
  | .error e => .error e
  | .ok mainFd =>
    match runStatements fuel TS.1 mainFd.statements TS.2 with
    | .error e => .error e
    | .ok r => .ok r.2

/-- The observable outcome of a run: the ordered output lines on normal
completion, or the kind of the error that aborted it. -/
def runObs (fuel : Nat) (p : Program) : Except ErrorType (List String) :=
  match run fuel p [] with
  | .ok s => .ok s.output
  | .error e => .error e.kind

/-- The observable outcome of a single call: output lines or error kind. -/
def callObs (r : Except Err (StoredVal × St)) : Except ErrorType (List String) :=
  match r with
  | .ok (_, s) => .ok s.output
  | .error e => .error e.kind

/-- Left-to-right evaluation of a list of expressions (used only by the
spec-order comparator below). -/
def evalArgsList (fuel : Nat) (T : FuncTable) :
    List Expr → St → Except Err (List StoredVal × St)
  | [], s => .ok ([], s)
  | e :: rest, s => do
    let (v, s1) ← evalExpr fuel T e s
    let (vs, s2) ← evalArgsList fuel T rest s1
    .ok (v :: vs, s2)

/-- Binding of already-evaluated actuals to formals (spec section 4.2 step
3), used only by the spec-order comparator below. -/
def bindEvaluated : List (Param × (Expr × StoredVal)) → St → St
  | [], s => s
  | (p, (a, v)) :: rest, s =>
    let s2 := createVar s p.name v
    let s3 := if p.refArg then refCreate s2 p.name (exprName a) else s2
    bindEvaluated rest s3

/-- Modelled from the spec: the call binding order claimed by section 4.2
steps 1-3 (claim C2): every actual argument expression is evaluated BEFORE
the callee's variable and alias frames are pushed; the evaluated values
are then bound to the formals.  This definition exists solely to be
compared against callFunc, whose source (lines 124-127) pushes the frames
first and evaluates the arguments afterwards. -/
def callFuncSpecOrder (fuel : Nat) (T : FuncTable) (fd : FuncDef)
    (args : List Expr) (s : St) : Except Err (StoredVal × St) := do
  let (vals, s1) ← evalArgsList fuel T args s
  let s2 := refPush (pushFrame s1)
  let s3 := bindEvaluated (fd.args.zip (args.zip vals)) s2
  let (r, s4) ← runStatements fuel T fd.statements s3
  .ok (r.2, popFrame (refPop s4))

/-! ## Concrete programs used by the claims -/

/-- Convenience: a zero-argument main with the given body. -/
def mainFn (stmts : List Stmt) : FuncDef := .mk "main" [] stmts

/-- func main() { bar(); } with bar undeclared everywhere. -/
def progUndeclaredCall : Program := [mainFn [.fcallStmt "bar" []]]

/-- func foo(a) {} func main() { foo(1, 2); } -- no arity-2 bucket. -/
def progArityMismatch : Program :=
  [.mk "foo" [⟨"a", false⟩] [], mainFn [.fcallStmt "foo" [.intLit 1, .intLit 2]]]

/-- The probe callee func f(x, y) { print(y); }. -/
def probeF : FuncDef :=
  .mk "f" [⟨"x", false⟩, ⟨"y", false⟩] [.fcallStmt "print" [.var "y"]]

/-- func f(x, y) { print(y); } func main() { x = 1; f(2, x); } -- the
second actual names the first formal. -/
def progArgOrderProbe : Program :=
  [probeF, mainFn [.assign "x" (.intLit 1), .fcallStmt "f" [.intLit 2, .var "x"]]]

/-- The function table of the probe program. -/
def probeT : FuncTable := (setUpFunctionTable progArgOrderProbe []).1

/-- The state the probe's main reaches just before the call f(2, x): the
global frame below main's block frame holding x = 1. -/
def probeCallSt : St :=
  setVar (pushFrame (setUpFunctionTable progArgOrderProbe []).2) "x" (.v (.int 1))

/-- func foo(a) {} -- the first, arity-1 definition of foo. -/
def fooArity1 : FuncDef := .mk "foo" [⟨"a", false⟩] []

/-- func foo(a, b) {} -- the second, arity-2 definition of foo. -/
def fooArity2 : FuncDef := .mk "foo" [⟨"a", false⟩, ⟨"b", false⟩] []

/-- func foo(a) {} func foo(a, b) {} func main() { x = foo; x(1); } -- a
first-class reference to a multi-arity function, called with a count that
matches the arity-1 bucket. -/
def progMultiArity : Program :=
  [fooArity1, fooArity2,
   mainFn [.assign "x" (.var "foo"), .fcallStmt "x" [.intLit 1]]]

/-- The function table of progMultiArity. -/
def c3T : FuncTable := (setUpFunctionTable progMultiArity []).1

/-- A state of progMultiArity in which the variable x holds the raw node
of the first foo definition (what x = foo stores: the environment's global
registration holds the first definition only). -/
def c3St : St :=
  setVar (pushFrame (setUpFunctionTable progMultiArity []).2) "x" (.node fooArity1)

/-- func main() { print(5 == 3); } -/
def progIntEqPin : Program :=
  [mainFn [.fcallStmt "print" [.binop "==" (.intLit 5) (.intLit 3)]]]

/-- func main() { print(5 / false); } -/
def progDivBoolGuard : Program :=
  [mainFn [.fcallStmt "print" [.binop "/" (.intLit 5) (.boolLit false)]]]

/-- func main() { print(5 / 0); } -/
def progDivZero : Program :=
  [mainFn [.fcallStmt "print" [.binop "/" (.intLit 5) (.intLit 0)]]]

/-- func f(ref a) { a = a + 1; } func main() { x = 5; f(x); print(x); } -/
def progRefParam : Program :=
  [.mk "f" [⟨"a", true⟩] [.assign "a" (.binop "+" (.var "a") (.intLit 1))],
   mainFn [.assign "x" (.intLit 5), .fcallStmt "f" [.var "x"],
     .fcallStmt "print" [.var "x"]]]

/-- func f(a) { a = a + 1; } func main() { x = 5; f(x); print(x); } -/
def progValParam : Program :=
  [.mk "f" [⟨"a", false⟩] [.assign "a" (.binop "+" (.var "a") (.intLit 1))],
   mainFn [.assign "x" (.intLit 5), .fcallStmt "f" [.var "x"],
     .fcallStmt "print" [.var "x"]]]

/-- func f() { x = 99; } func main() { x = 5; f(); print(x); } -- the
callee assigns a name it does not define locally and has no ref formals at
all. -/
def progCalleeWritesCaller : Program :=
  [.mk "f" [] [.assign "x" (.intLit 99)],
   mainFn [.assign "x" (.intLit 5), .fcallStmt "f" [],
     .fcallStmt "print" [.var "x"]]]

/-- func f() { if (true) { while (true) { return 42; q = 1; } y = 2; }
z = 3; return 0; } func g() { w = 1; }
func main() { print(f()); a = g(); if (a == nil) { print(7); } } -/
def progNestedReturn : Program :=
  [.mk "f" []
     [.ifStmt (.boolLit true)
        [.whileStmt (.boolLit true) [.ret (some (.intLit 42)), .assign "q" (.intLit 1)],
         .assign "y" (.intLit 2)] none,
      .assign "z" (.intLit 3), .ret (some (.intLit 0))],
   .mk "g" [] [.assign "w" (.intLit 1)],
   mainFn [.fcallStmt "print" [.fcall "f" []], .assign "a" (.fcall "g" []),
     .ifStmt (.binop "==" (.var "a") .nilLit) [.fcallStmt "print" [.intLit 7]] none]]

/-- The callee shared by the two C8 programs: func foo() { y = x; }. -/
def c8Foo : FuncDef := .mk "foo" [] [.assign "y" (.var "x")]

/-- func foo() { y = x; } func main() { x = foo; x(); } -/
def progIndirectCall : Program :=
  [c8Foo, mainFn [.assign "x" (.var "foo"), .fcallStmt "x" []]]

/-- func foo() { y = x; } func main() { foo(); } -/
def progDirectCall : Program := [c8Foo, mainFn [.fcallStmt "foo" []]]

/-- The function table of progIndirectCall. -/
def c8T : FuncTable := (setUpFunctionTable progIndirectCall []).1

/-- A state of progIndirectCall in which the variable x holds the raw node
of foo (the state main reaches after x = foo). -/
def c8St : St :=
  setVar (pushFrame (setUpFunctionTable progIndirectCall []).2) "x" (.node c8Foo)

/-- The empty initial state (no input). -/
def emptySt : St := initSt []

/-! ## Helper lemmas: pure state operations preserve the stack shapes -/

theorem length_setVarFrames (name : String) (v : StoredVal) :
    ∀ fs : List Frame, (setVarFrames name v fs).length = fs.length := by
  intro fs
  induction fs with
  | nil => rfl
  | cons f rest ih =>
    simp only [setVarFrames]
    split
    · simp
    · split
      · simpa using ih
      · simp

@[simp] theorem setVar_frames_length (s : St) (name : String) (v : StoredVal) :
    (setVar s name v).frames.length = s.frames.length := by
  simp [setVar, length_setVarFrames]

@[simp] theorem setVar_refFrames (s : St) (name : String) (v : StoredVal) :
    (setVar s name v).refFrames = s.refFrames := rfl

@[simp] theorem createVar_frames_length (s : St) (name : String) (v : StoredVal) :
    (createVar s name v).frames.length = s.frames.length := by
  rcases s with ⟨fs, rfs, o, i⟩
  cases fs <;> rfl

@[simp] theorem createVar_refFrames (s : St) (name : String) (v : StoredVal) :
    (createVar s name v).refFrames = s.refFrames := by
  rcases s with ⟨fs, rfs, o, i⟩
  cases fs <;> rfl

@[simp] theorem pushFrame_frames_length (s : St) :
    (pushFrame s).frames.length = s.frames.length + 1 := rfl

@[simp] theorem pushFrame_refFrames (s : St) :
    (pushFrame s).refFrames = s.refFrames := rfl

@[simp] theorem popFrame_frames_length (s : St) :
    (popFrame s).frames.length = s.frames.length - 1 := by
  simp [popFrame]

@[simp] theorem popFrame_refFrames (s : St) :
    (popFrame s).refFrames = s.refFrames := rfl

@[simp] theorem refPush_refFrames_length (s : St) :
    (refPush s).refFrames.length = s.refFrames.length + 1 := rfl

@[simp] theorem refPush_frames (s : St) : (refPush s).frames = s.frames := rfl

@[simp] theorem refPop_refFrames_length (s : St) :
    (refPop s).refFrames.length = s.refFrames.length - 1 := by
  simp [refPop]

@[simp] theorem refPop_frames (s : St) : (refPop s).frames = s.frames := rfl

@[simp] theorem refCreate_frames (s : St) (name : String) (t : Option String) :
    (refCreate s name t).frames = s.frames := by
  rcases s with ⟨fs, rfs, o, i⟩
  cases rfs <;> rfl

@[simp] theorem refCreate_refFrames_length (s : St) (name : String)
    (t : Option String) :
    (refCreate s name t).refFrames.length = s.refFrames.length := by
  rcases s with ⟨fs, rfs, o, i⟩
  cases rfs <;> rfl

@[simp] theorem refSet_frames_length (s : St) (name : String) (v : StoredVal) :
    (refSet s name v).frames.length = s.frames.length := by
  unfold refSet
  split <;> simp

@[simp] theorem refSet_refFrames (s : St) (name : String) (v : StoredVal) :
    (refSet s name v).refFrames = s.refFrames := by
  unfold refSet
  split <;> rfl

/-- Inversion of a successful Except bind. -/
theorem except_bind_ok {α β : Type} {m : Except Err α} {k : α → Except Err β}
    {r : β} (h : (m >>= k) = Except.ok r) :
    ∃ a, m = Except.ok a ∧ k a = Except.ok r := by
  cases m with
  | error e => exact Except.noConfusion h
  | ok a => exact ⟨a, rfl, h⟩

/-- Both stack depths of the first state equal those of the second. -/
abbrev sameDims (a b : St) : Prop :=
  a.frames.length = b.frames.length ∧ a.refFrames.length = b.refFrames.length

theorem sameDims_refl (a : St) : sameDims a a := ⟨rfl, rfl⟩

theorem sameDims_trans {a b c : St} (h1 : sameDims a b) (h2 : sameDims b c) :
    sameDims a c := ⟨h1.1.trans h2.1, h1.2.trans h2.2⟩

theorem sameDims_setVar (s : St) (name : String) (v : StoredVal) :
    sameDims (setVar s name v) s := ⟨by simp, by simp⟩

theorem sameDims_createVar (s : St) (name : String) (v : StoredVal) :
    sameDims (createVar s name v) s := ⟨by simp, by simp⟩

theorem sameDims_refCreate (s : St) (name : String) (t : Option String) :
    sameDims (refCreate s name t) s := ⟨by simp, by simp⟩

theorem sameDims_refSet (s : St) (name : String) (v : StoredVal) :
    sameDims (refSet s name v) s := ⟨by simp, by simp⟩

/-- The frame-stack and alias-stack preservation invariant, proved for
every interpreter entry point simultaneously by induction on fuel: every
successful execution restores both stack depths. -/
theorem preserveAll : ∀ (fuel : Nat) (T : FuncTable),
    (∀ e s r, evalExpr fuel T e s = .ok r → sameDims r.2 s)
  ∧ (∀ name args s r, callFunc fuel T name args s = .ok r → sameDims r.2 s)
  ∧ (∀ pairs s r, bindArgs fuel T pairs s = .ok r → sameDims r s)
  ∧ (∀ args acc s r, callPrint fuel T args acc s = .ok r → sameDims r.2 s)
  ∧ (∀ name args s r, callInput fuel T name args s = .ok r → sameDims r.2 s)
  ∧ (∀ stmts s r, runStatements fuel T stmts s = .ok r → sameDims r.2 s)
  ∧ (∀ stmts s r, execSeq fuel T stmts s = .ok r → sameDims r.2 s)
  ∧ (∀ st s r, execStmt fuel T st s = .ok r → sameDims r.2 s)
  ∧ (∀ c thenS elseS s r, doIf fuel T c thenS elseS s = .ok r → sameDims r.2 s)
  ∧ (∀ c body s r, doWhile fuel T c body s = .ok r → sameDims r.2 s) := by
  intro fuel
  induction fuel with
  | zero =>
    intro T
    refine ⟨?_, ?_, ?_, ?_, ?_, ?_, ?_, ?_, ?_, ?_⟩ <;>
      first
      | exact fun a b c h => Except.noConfusion h
      | exact fun a b c d h => Except.noConfusion h
      | exact fun a b c d e h => Except.noConfusion h
  | succ f ih =>
    intro T
    obtain ⟨ihEval, ihCall, ihBind, ihPrint, ihInput, ihRun, ihSeq, ihStmt,
      ihIf, ihWhile⟩ := ih T
    have hEval : ∀ e s r, evalExpr (f + 1) T e s = .ok r → sameDims r.2 s := by
      intro e s r h
      cases e with
      | nilLit => cases h; exact sameDims_refl s
      | intLit n => cases h; exact sameDims_refl s
      | strLit t => cases h; exact sameDims_refl s
      | boolLit b => cases h; exact sameDims_refl s
      | lambdaDef fd => cases h; exact sameDims_refl s
      | var name =>
        simp only [evalExpr] at h
        split at h
        · cases h; exact sameDims_refl s
        · exact Except.noConfusion h
      | fcall name args => exact ihCall name args s r h
      | binop op e1 e2 =>
        simp only [evalExpr] at h
        obtain ⟨⟨l, s1⟩, h1, h⟩ := except_bind_ok h
        obtain ⟨⟨rv, s2⟩, h2, h⟩ := except_bind_ok h
        obtain ⟨v, hv, h⟩ := except_bind_ok h
        cases h
        exact sameDims_trans (ihEval e2 (l, s1).2 (rv, s2) h2)
          (ihEval e1 s (l, s1) h1)
      | neg e1 =>
        simp only [evalExpr] at h
        obtain ⟨⟨val, s1⟩, h1, h⟩ := except_bind_ok h
        obtain ⟨v, hv, h⟩ := except_bind_ok h
        cases h
        exact ihEval e1 s (val, s1) h1
      | notOp e1 =>
        simp only [evalExpr] at h
        obtain ⟨⟨val, s1⟩, h1, h⟩ := except_bind_ok h
        obtain ⟨v, hv, h⟩ := except_bind_ok h
        cases h
        exact ihEval e1 s (val, s1) h1
    have hBind : ∀ pairs s r, bindArgs (f + 1) T pairs s = .ok r →
        sameDims r s := by
      intro pairs s r h
      cases pairs with
      | nil => cases h; exact sameDims_refl s
      | cons pa rest =>
        obtain ⟨p, a⟩ := pa
        simp only [bindArgs] at h
        obtain ⟨⟨result, s1⟩, h1, h⟩ := except_bind_ok h
        have d1 : sameDims s1 s := ihEval a s _ h1
        have hr := ihBind rest _ r h
        refine sameDims_trans hr ?_
        cases hp : p.refArg with
        | true =>
          simp only [hp, if_true]
          exact sameDims_trans
            (sameDims_refCreate (createVar s1 p.name result) p.name (exprName a))
            (sameDims_trans (sameDims_createVar s1 p.name result) d1)
        | false =>
          simp only [hp, Bool.false_eq_true, if_false]
          exact sameDims_trans (sameDims_createVar s1 p.name result) d1
    have hPrint : ∀ args acc s r, callPrint (f + 1) T args acc s = .ok r →
        sameDims r.2 s := by
      intro args acc s r h
      cases args with
      | nil => cases h; exact sameDims_refl s
      | cons a rest =>
        simp only [callPrint] at h
        obtain ⟨⟨result, s1⟩, h1, h⟩ := except_bind_ok h
        obtain ⟨p, hp, h⟩ := except_bind_ok h
        exact sameDims_trans (ihPrint rest (acc ++ p) s1 r h) (ihEval a s _ h1)
    have hInput : ∀ name args s r, callInput (f + 1) T name args s = .ok r →
        sameDims r.2 s := by
      intro name args s r h
      simp only [callInput] at h
      cases args with
      | nil =>
        obtain ⟨s1, h1, h⟩ := except_bind_ok h
        cases h1
        split at h
        · exact Except.noConfusion h
        · split at h
          · split at h
            · cases h
              exact ⟨rfl, rfl⟩
            · exact Except.noConfusion h
          · cases h
            exact ⟨rfl, rfl⟩
      | cons a rest =>
        cases rest with
        | nil =>
          obtain ⟨res, h2, h⟩ := except_bind_ok h
          obtain ⟨p, hp, h⟩ := except_bind_ok h
          obtain ⟨s1, h1, h⟩ := except_bind_ok h
          cases h1
          have d1 : sameDims res.2 s := ihEval a s res h2
          split at h
          · exact Except.noConfusion h
          · split at h
            · split at h
              · cases h
                exact d1
              · exact Except.noConfusion h
            · cases h
              exact d1
        | cons b rest2 => exact Except.noConfusion h
    have hRun : ∀ stmts s r, runStatements (f + 1) T stmts s = .ok r →
        sameDims r.2 s := by
      intro stmts s r h
      simp only [runStatements] at h
      obtain ⟨⟨r1, s1⟩, h1, h⟩ := except_bind_ok h
      cases h
      have d1 : sameDims s1 (pushFrame s) := ihSeq stmts (pushFrame s) _ h1
      have e1 : s1.frames.length = s.frames.length + 1 := by
        simpa using d1.1
      have e2 : s1.refFrames.length = s.refFrames.length := by
        simpa using d1.2
      exact ⟨by simp [e1], by simp [e2]⟩
    have hCall : ∀ name args s r, callFunc (f + 1) T name args s = .ok r →
        sameDims r.2 s := by
      intro name args s r h
      simp only [callFunc] at h
      split at h
      · exact ihPrint args "" s r h
      · split at h
        · exact ihInput name args s r h
        · split at h
          · exact Except.noConfusion h
          · split at h
            · exact Except.noConfusion h
            · rename_i fd heq hcond
              obtain ⟨s2, h2, h⟩ := except_bind_ok h
              obtain ⟨⟨r3, s3⟩, h3, h⟩ := except_bind_ok h
              cases h
              have d2 : sameDims s2 (refPush (pushFrame s)) :=
                ihBind (fd.args.zip args) (refPush (pushFrame s)) _ h2
              have d3 : sameDims s3 s2 := ihRun fd.statements s2 _ h3
              have e1 : s3.frames.length = s.frames.length + 1 := by
                have := d3.1.trans d2.1
                simpa using this
              have e2 : s3.refFrames.length = s.refFrames.length + 1 := by
                have := d3.2.trans d2.2
                simpa using this
              exact ⟨by simp [e1], by simp [e2]⟩
    have hStmt : ∀ st s r, execStmt (f + 1) T st s = .ok r →
        sameDims r.2 s := by
      intro st s r h
      cases st with
      | fcallStmt name args =>
        simp only [execStmt] at h
        obtain ⟨⟨v, s1⟩, h1, h⟩ := except_bind_ok h
        cases h
        exact ihCall name args s (v, s1) h1
      | assign name e =>
        simp only [execStmt] at h
        obtain ⟨⟨valueObj, s1⟩, h1, h⟩ := except_bind_ok h
        have d1 : sameDims s1 s := ihEval e s _ h1
        split at h
        · cases h
          exact sameDims_trans
            (sameDims_refSet (setVar s1 name valueObj) name valueObj)
            (sameDims_trans (sameDims_setVar s1 name valueObj) d1)
        · cases h
          exact sameDims_trans (sameDims_setVar s1 name valueObj) d1
      | ret oe =>
        cases oe with
        | none => cases h; exact sameDims_refl s
        | some e =>
          simp only [execStmt] at h
          obtain ⟨⟨valueObj, s1⟩, h1, h⟩ := except_bind_ok h
          cases h
          exact ihEval e s (valueObj, s1) h1
      | ifStmt c thenS elseS => exact ihIf c thenS elseS s r h
      | whileStmt c body => exact ihWhile c body s r h
    have hSeq : ∀ stmts s r, execSeq (f + 1) T stmts s = .ok r →
        sameDims r.2 s := by
      intro stmts s r h
      cases stmts with
      | nil => cases h; exact sameDims_refl s
      | cons st rest =>
        simp only [execSeq] at h
        obtain ⟨⟨r1, s1⟩, h1, h⟩ := except_bind_ok h
        have d1 : sameDims s1 s := ihStmt st s _ h1
        obtain ⟨st1, v1⟩ := r1
        cases st1 with
        | RETURN =>
          cases h
          exact d1
        | CONTINUE =>
          exact sameDims_trans (ihSeq rest s1 r h) d1
    have hIf : ∀ c thenS elseS s r, doIf (f + 1) T c thenS elseS s = .ok r →
        sameDims r.2 s := by
      intro c thenS elseS s r h
      simp only [doIf] at h
      obtain ⟨⟨cv, s1⟩, h1, h⟩ := except_bind_ok h
      obtain ⟨b, hb, h⟩ := except_bind_ok h
      have d1 : sameDims s1 s := ihEval c s _ h1
      split at h
      · exact sameDims_trans (ihRun thenS s1 r h) d1
      · split at h
        · exact sameDims_trans (ihRun _ s1 r h) d1
        · cases h
          exact d1
    have hWhile : ∀ c body s r, doWhile (f + 1) T c body s = .ok r →
        sameDims r.2 s := by
      intro c body s r h
      simp only [doWhile] at h
      obtain ⟨⟨cv, s1⟩, h1, h⟩ := except_bind_ok h
      obtain ⟨b, hb, h⟩ := except_bind_ok h
      have d1 : sameDims s1 s := ihEval c s _ h1
      split at h
      · obtain ⟨⟨r2, s2⟩, h2, h⟩ := except_bind_ok h
        have d2 : sameDims s2 s1 := ihRun body s1 _ h2
        obtain ⟨st2, v2⟩ := r2
        cases st2 with
        | RETURN =>
          cases h
          exact sameDims_trans d2 d1
        | CONTINUE =>
          exact sameDims_trans (ihWhile c body s2 r h)
            (sameDims_trans d2 d1)
      · cases h
        exact d1
    exact ⟨hEval, hCall, hBind, hPrint, hInput, hRun, hSeq, hStmt, hIf, hWhile⟩

/-- A statement sequence whose prefix already produced RETURN never reaches
the statements after the prefix: the loop of __run_statements returns at
the first RETURN status (line 96-98). -/
theorem execSeq_ret_append : ∀ (l1 : List Stmt) (fuel : Nat) (T : FuncTable)
    (l2 : List Stmt) (s : St) (v : StoredVal) (s2 : St),
    execSeq fuel T l1 s = .ok ((ExecStatus.RETURN, v), s2) →
    execSeq fuel T (l1 ++ l2) s = .ok ((ExecStatus.RETURN, v), s2) := by
  intro l1
  induction l1 with
  | nil =>
    intro fuel T l2 s v s2 h
    cases fuel with
    | zero => exact Except.noConfusion h
    | succ f => simp [execSeq] at h
  | cons a l1' ih =>
    intro fuel T l2 s v s2 h
    cases fuel with
    | zero => exact Except.noConfusion h
    | succ f =>
      simp only [List.cons_append]
      simp only [execSeq] at h ⊢
      obtain ⟨⟨r1, s1⟩, h1, h⟩ := except_bind_ok h
      rw [h1]
      obtain ⟨st1, v1⟩ := r1
      cases st1 with
      | RETURN => exact h
      | CONTINUE => exact ih f T l2 s1 v s2 h

/-- A statement sequence that falls off its end carries NIL in its
CONTINUE result (line 101). -/
theorem execSeq_continue_nil : ∀ (l : List Stmt) (fuel : Nat) (T : FuncTable)
    (s : St) (v : StoredVal) (s2 : St),
    execSeq fuel T l s = .ok ((ExecStatus.CONTINUE, v), s2) →
    v = NIL_VALUE := by
  intro l
  induction l with
  | nil =>
    intro fuel T s v s2 h
    cases fuel with
    | zero => exact Except.noConfusion h
    | succ f =>
      simp only [execSeq] at h
      cases h
      rfl
  | cons a rest ih =>
    intro fuel T s v s2 h
    cases fuel with
    | zero => exact Except.noConfusion h
    | succ f =>
      simp only [execSeq] at h
      obtain ⟨⟨r1, s1⟩, h1, h⟩ := except_bind_ok h
      obtain ⟨st1, v1⟩ := r1
      cases st1 with
      | RETURN => simp at h
      | CONTINUE => exact ih f T s1 v s2 h

/-- Lifting of execSeq_continue_nil through the frame push and pop of
__run_statements. -/
theorem runStatements_continue_nil (fuel : Nat) (T : FuncTable)
    (stmts : List Stmt) (s : St) (v : StoredVal) (s2 : St)
    (h : runStatements fuel T stmts s = .ok ((ExecStatus.CONTINUE, v), s2)) :
    v = NIL_VALUE := by
  cases fuel with
  | zero => exact Except.noConfusion h
  | succ f =>
    simp only [runStatements] at h
    obtain ⟨⟨r1, s1⟩, h1, h⟩ := except_bind_ok h
    obtain ⟨st1, v1⟩ := r1
    simp only [Except.ok.injEq, Prod.mk.injEq] at h
    obtain ⟨⟨hst, hv⟩, hs⟩ := h
    subst hst
    subst hv
    exact execSeq_continue_nil stmts f T (pushFrame s) _ _ h1

/-- Updating a key makes it the value found by lookup. -/
theorem lookupAssoc_updateAssoc_self {α : Type} (k : String) (v : α) :
    ∀ l : List (String × α), lookupAssoc k (updateAssoc k v l) = some v := by
  intro l
  induction l with
  | nil => simp [lookupAssoc, updateAssoc, List.find?]
  | cons p rest ih =>
    obtain ⟨k2, w⟩ := p
    by_cases hk : (k2 == k) = true
    · simp [updateAssoc, hk, lookupAssoc, List.find?]
    · simp only [updateAssoc, hk, if_false, Bool.false_eq_true]
      simp only [lookupAssoc, List.find?, hk]
      simpa [lookupAssoc] using ih

/-! ## The claims -/

/-- Claim C1 (code bug).  The claim says a call whose name is undeclared
as both function and variable, or whose argument count matches no arity
bucket, fails with NameError and no other error kind.  The resolver
__get_func_by_name does raise NAME_ERROR for both conditions, but every
call-site resolution runs inside the bare try/except of __call_func (lines
112-117), which converts any raised error into TYPE_ERROR reading
"Function call not found"; so both failing inputs surface as TypeError.
This theorem evaluates the embedded interpreter at the two failing inputs:
an undeclared callee and an unmatched argument count both abort the run
with TYPE_ERROR. -/
theorem C1_call_resolution_errors_surface_as_type_error :
    runObs 64 progUndeclaredCall = .error ErrorType.TYPE_ERROR ∧
    runObs 64 progArityMismatch = .error ErrorType.TYPE_ERROR :=
  ⟨rfl, rfl⟩

/-- Claim C2 (counterexample).  The claim says every actual argument is
evaluated before the callee's new variable frame is pushed, so no
actual-argument evaluation can observe a formal parameter bound for the
call.  In the probe program, main holds x = 1 and calls f(2, x) where f's
formals are (x, y): the source (lines 124-127) pushes the callee frames
first and binds interleaved, so the actual x is looked up after the formal
x was bound to 2, and the program prints 2; under the claimed ordering
(callFuncSpecOrder, built from the spec's sentence) the same call from the
same state prints 1.  The last conjunct certifies that probeCallSt is
exactly the state main reaches before the call. -/
theorem C2_counterexample_binding_order_observable :
    runObs 64 progArgOrderProbe = .ok ["2"] ∧
    callObs (callFunc 62 probeT "f" [.intLit 2, .var "x"] probeCallSt) =
      .ok ["2"] ∧
    callObs (callFuncSpecOrder 62 probeT probeF [.intLit 2, .var "x"]
      probeCallSt) = .ok ["1"] ∧
    execSeq 62 probeT [.assign "x" (.intLit 1)]
      (pushFrame (setUpFunctionTable progArgOrderProbe []).2) =
      .ok ((ExecStatus.CONTINUE, NIL_VALUE), probeCallSt) :=
  ⟨rfl, rfl, rfl, rfl⟩

/-- Claim C2 (amended).  Actual arguments are evaluated after the callee's
variable and alias frames are pushed, interleaved in order with formal
binding; consequently an actual argument that names an already-bound
formal observes the callee's binding, not the caller's.  Stated generally:
binding the formal p to the literal i and then the formal q to the actual
expression (variable p) stores i for q as well -- the evaluation of the
second actual reads the first formal just created in the callee frame. -/
theorem C2_amended_interleaved_binding_observes_formals :
    ∀ (n : Nat) (T : FuncTable) (p q : String) (i : Int) (fr : Frame)
      (fs : List Frame) (rfs : List RefFrame) (out inp : List String),
    bindArgs (n + 3) T [(⟨p, false⟩, .intLit i), (⟨q, false⟩, .var p)]
      ⟨fr :: fs, rfs, out, inp⟩ =
    .ok (createVar (createVar ⟨fr :: fs, rfs, out, inp⟩ p (.v (.int i))) q
      (.v (.int i))) := by
  intro n T p q i fr fs rfs out inp
  have e1 : evalExpr (n + 2) T (.intLit i) ⟨fr :: fs, rfs, out, inp⟩ =
      .ok (.v (.int i), ⟨fr :: fs, rfs, out, inp⟩) := rfl
  have hlook : envGet (createVar ⟨fr :: fs, rfs, out, inp⟩ p (.v (.int i))) p
      = some (.v (.int i)) := by
    simp only [createVar, envGet, envGetFrames,
      lookupAssoc_updateAssoc_self]
  have e2 : evalExpr (n + 1) T (.var p)
      (createVar ⟨fr :: fs, rfs, out, inp⟩ p (.v (.int i))) =
      .ok (.v (.int i),
        createVar ⟨fr :: fs, rfs, out, inp⟩ p (.v (.int i))) := by
    simp only [evalExpr, hlook]
  rw [bindArgs]
  simp only [e1]
  show bindArgs (n + 2) T [(⟨q, false⟩, Expr.var p)]
      (createVar ⟨fr :: fs, rfs, out, inp⟩ p (.v (.int i))) = _
  rw [bindArgs]
  simp only [e2]
  rfl

/-- Claim C3 (counterexample).  The claim says a call through a variable
holding a first-class reference to a multi-arity function resolves through
the original table when the argument count matches a bucket, and executes.
In progMultiArity, foo has buckets at arities 1 and 2 and main calls x(1)
after x = foo: the count 1 matches the arity-1 bucket, yet the run aborts
with an error (the resolver rejects first-class resolution of any
multi-definition name at lines 67-71, and the call site's except converts
it to TYPE_ERROR) instead of executing foo(a), which would have completed
normally with empty output. -/
theorem C3_counterexample_multi_arity_first_class_call_fails :
    runObs 64 progMultiArity = .error ErrorType.TYPE_ERROR :=
  rfl

/-- Claim C3 (amended).  A call through a variable holding a first-class
reference to a function with more than one arity bucket is rejected by
__get_func_by_name with a NameError about multiple definitions, whatever
the argument count is -- even one that exactly matches a bucket; the
indirection resolves through the table only for single-bucket names. -/
theorem C3_amended_multi_arity_first_class_resolution_rejected :
    ∀ (T : FuncTable) (s : St) (x : String) (fd : FuncDef)
      (buckets : List (Nat × FuncDef)) (k : Nat),
    lookupAssoc x T = none →
    envGet s x = some (.node fd) →
    lookupAssoc fd.name T = some buckets →
    1 < buckets.length →
    getFuncByName T s x k =
      .error (nameError
        "Function has multiple definitions, must specify number of parameters") := by
  intro T s x fd buckets k h1 h2 h3 h4
  simp only [getFuncByName, h1, h2, h3]
  simp [h4]

/-- Witness for the amended C3: in progMultiArity's table the name foo has
two buckets, the count 1 has a matching bucket, and resolution of the
first-class x at count 1 is still rejected. -/
theorem C3_witness :
    lookupBucket 1 [(1, fooArity1), (2, fooArity2)] = some fooArity1 ∧
    getFuncByName c3T c3St "x" 1 =
      .error (nameError
        "Function has multiple definitions, must specify number of parameters") :=
  ⟨rfl,
    C3_amended_multi_arity_first_class_resolution_rejected c3T c3St "x"
      fooArity1 [(1, fooArity1), (2, fooArity2)] 1 rfl rfl rfl
      (by decide)⟩

/-- Claim C4 (confirmed).  Int == Int compares truthiness equality: the
result is Bool true exactly when both operands are nonzero or both are
zero -- not numeric value equality; in particular the program
print(5 == 3) prints true. -/
theorem C4_int_eq_is_truthiness_equality :
    (∀ a b : Int, evalOp "==" (.v (.int a)) (.v (.int b)) =
      .ok (.v (.bool (decide ((a ≠ 0 ∧ b ≠ 0) ∨ (a = 0 ∧ b = 0)))))) ∧
    runObs 64 progIntEqPin = .ok ["true"] := by
  constructor
  · intro a b
    have step : evalOp "==" (.v (.int a)) (.v (.int b)) =
        .ok (.v (.bool ((a != 0 && !valueEqZero (.int b)) ||
          (a == 0 && valueEqZero (.int b))))) := rfl
    rw [step]
    have hb : ((a != 0 && !valueEqZero (.int b)) ||
        (a == 0 && valueEqZero (.int b))) =
        decide ((a ≠ 0 ∧ b ≠ 0) ∨ (a = 0 ∧ b = 0)) := by
      simp only [valueEqZero]
      by_cases h1 : a = 0 <;> by_cases h2 : b = 0 <;> simp [h1, h2, bne]
    rw [hb]
  · rfl

/-- Claim C5 (confirmed).  The division guard is asymmetric: an Int left
operand divided by the Bool false yields Int 0 (the Bool-right guard of
op_to_lambda at lines 266-268), while division by the Int literal 0 is
unguarded and raises the host's native ZeroDivisionError (the FAULT kind,
distinct from NAME_ERROR and TYPE_ERROR), not a structured interpreter
error and not 0; concretely print(5 / false) prints 0 and print(5 / 0)
aborts the run with the fault. -/
theorem C5_division_guard_asymmetry :
    (∀ a : Int, evalOp "/" (.v (.int a)) (.v (.bool false)) =
      .ok (.v (.int 0))) ∧
    (∀ a : Int, evalOp "/" (.v (.int a)) (.v (.int 0)) =
      .error (fault "ZeroDivisionError")) ∧
    runObs 64 progDivBoolGuard = .ok ["0"] ∧
    runObs 64 progDivZero = .error ErrorType.FAULT :=
  ⟨fun _ => rfl, fun _ => rfl, rfl, rfl⟩

/-- Claim C6 (counterexample).  The claim says reference-parameter
mirroring is the only channel through which a call mutates caller state.
In progCalleeWritesCaller the callee f has no parameters at all and merely
assigns x = 99; the assignment finds no local binding, falls through the
flat frame stack to main's frame, and overwrites the caller's x: the
program prints 99 where the claim implies it would print 5. -/
theorem C6_counterexample_nonref_call_mutates_caller :
    runObs 64 progCalleeWritesCaller = .ok ["99"] :=
  rfl

/-- Claim C6 (amended).  The reference-parameter behaviour itself holds:
func f(ref a){ a = a + 1; } func main(){ x = 5; f(x); print(x); } prints 6
(the write to the by-reference formal is mirrored into the caller's x at
assignment time), and the by-value counterpart prints 5 -- but mirroring
is not the only channel by which a call can mutate caller state (see the
counterexample: assignment to a name the callee does not define falls
through to the caller's frame). -/
theorem C6_amended_ref_param_mirroring :
    runObs 64 progRefParam = .ok ["6"] ∧
    runObs 64 progValParam = .ok ["5"] :=
  ⟨rfl, rfl⟩

/-- Claim C7 (confirmed).  A function call's result is the value of the
first RETURN produced by the body: once a prefix of a statement sequence
produces RETURN, any statements after that prefix are never executed and
the RETURN value passes through unchanged; a sequence that completes
without returning carries NIL in its CONTINUE result, which __call_func
then returns.  The concrete program nests return 42 inside a while inside
an if with pending statements at every level, and pairs it with a
fall-off-the-end callee g whose result compares equal to nil: the run
prints 42 and then 7. -/
theorem C7_return_unwinds_and_nil_default :
    (∀ (fuel : Nat) (T : FuncTable) (l1 l2 : List Stmt) (s : St)
      (v : StoredVal) (s2 : St),
      execSeq fuel T l1 s = .ok ((ExecStatus.RETURN, v), s2) →
      execSeq fuel T (l1 ++ l2) s = .ok ((ExecStatus.RETURN, v), s2)) ∧
    (∀ (fuel : Nat) (T : FuncTable) (stmts : List Stmt) (s : St)
      (v : StoredVal) (s2 : St),
      runStatements fuel T stmts s = .ok ((ExecStatus.CONTINUE, v), s2) →
      v = NIL_VALUE) ∧
    runObs 64 progNestedReturn = .ok ["42", "7"] :=
  ⟨fun fuel T l1 l2 s v s2 h => execSeq_ret_append l1 fuel T l2 s v s2 h,
   fun fuel T stmts s v s2 h =>
     runStatements_continue_nil fuel T stmts s v s2 h,
   rfl⟩

/-- Witness for C7: a concrete early return, with a pending assignment
after it, yields the returned value and skips the suffix. -/
theorem C7_witness :
    execSeq 3 [] ([.ret (some (.intLit 42))] ++ [.assign "z" (.intLit 1)])
      emptySt = .ok ((ExecStatus.RETURN, .v (.int 42)), emptySt) :=
  C7_return_unwinds_and_nil_default.1 3 [] [.ret (some (.intLit 42))]
    [.assign "z" (.intLit 1)] emptySt (.v (.int 42)) emptySt rfl

/-- Claim C8 (counterexample).  The claim says that for every program with
a single zero-argument foo, main(){ x = foo; x(); } behaves exactly like
main(){ foo(); }.  With foo's body y = x; the two programs differ: the
indirect form completes normally with empty output (foo's body reads the
binding x = foo through the flat frame stack), while the direct form
aborts with NAME_ERROR because no x is bound anywhere. -/
theorem C8_counterexample_program_pair_differs :
    runObs 64 progIndirectCall = .ok [] ∧
    runObs 64 progDirectCall = .error ErrorType.NAME_ERROR :=
  ⟨rfl, rfl⟩

/-- Claim C8 (amended).  The two call forms are equivalent as calls: from
any one state in which x is not a declared function name, x holds the raw
node of a definition named foo, and foo has the single zero-argument
bucket, the call expressions x() and foo() evaluate to literally the same
outcome.  The full program pair is not observationally equivalent because
the extra binding x = foo is itself visible to the callee (see the
counterexample). -/
theorem C8_amended_same_state_call_equivalence :
    ∀ (fuel : Nat) (T : FuncTable) (s : St) (fd fd2 : FuncDef),
    lookupAssoc "x" T = none →
    envGet s "x" = some (.node fd) →
    fd.name = "foo" →
    lookupAssoc "foo" T = some [(0, fd2)] →
    callFunc fuel T "x" [] s = callFunc fuel T "foo" [] s := by
  intro fuel T s fd fd2 h1 h2 h3 h4
  cases fuel with
  | zero => rfl
  | succ f =>
    simp only [callFunc, getFuncByName, h1, h2, h3, h4]
    rfl

/-- Witness for the amended C8: the concrete table and state of
progIndirectCall after x = foo. -/
theorem C8_witness :
    callFunc 40 c8T "x" [] c8St = callFunc 40 c8T "foo" [] c8St :=
  C8_amended_same_state_call_equivalence 40 c8T c8St c8Foo c8Foo rfl rfl
    rfl rfl

/-- Claim C9 (confirmed).  Every successful execution of a statement
sequence pushes exactly one scope frame and pops it on every exit path,
and every successful user-defined call pops both the alias frame and the
variable frame it pushed, even on early return: on every ok outcome both
stack depths are restored to their pre-execution values (error outcomes
abort the whole run, so no balanced teardown is observable for them). -/
theorem C9_frame_and_alias_stacks_balanced :
    (∀ (fuel : Nat) (T : FuncTable) (stmts : List Stmt) (s : St)
      (r : (ExecStatus × StoredVal) × St),
      runStatements fuel T stmts s = .ok r → sameDims r.2 s) ∧
    (∀ (fuel : Nat) (T : FuncTable) (name : String) (args : List Expr)
      (s : St) (r : StoredVal × St),
      callFunc fuel T name args s = .ok r → sameDims r.2 s) :=
  ⟨fun fuel T => (preserveAll fuel T).2.2.2.2.2.1,
   fun fuel T => (preserveAll fuel T).2.1⟩

/-- Witness for C9: the complete call f(2, x) of the probe program (which
pushes and pops a call frame, an alias frame and a body block frame, and
prints 2 on the way) restores both stack depths of probeCallSt. -/
theorem C9_witness :
    sameDims { probeCallSt with output := ["2"] } probeCallSt :=
  C9_frame_and_alias_stacks_balanced.2 60 probeT "f" [.intLit 2, .var "x"]
    probeCallSt (NIL_VALUE, { probeCallSt with output := ["2"] }) rfl

/-- Claim C10 (confirmed).  For a zero left operand and an Int right
operand n outside 0 and 1, both 0 == n and 0 != n evaluate to Bool false
(the != table entry tests the right payload against Python True, i.e.
against 1, instead of negating truthiness equality), so != is not the
logical negation of == on Int operands; and != is asymmetric: n != 0 is
true for every nonzero n while 0 != n is false for every n outside 0 and
1. -/
theorem C10_int_ne_not_negation_and_asymmetric :
    ∀ n : Int, n ≠ 0 → n ≠ 1 →
    evalOp "==" (.v (.int 0)) (.v (.int n)) = .ok (.v (.bool false)) ∧
    evalOp "!=" (.v (.int 0)) (.v (.int n)) = .ok (.v (.bool false)) ∧
    evalOp "!=" (.v (.int n)) (.v (.int 0)) = .ok (.v (.bool true)) := by
  intro n h0 h1
  refine ⟨?_, ?_, ?_⟩
  · have step : evalOp "==" (.v (.int 0)) (.v (.int n)) =
        .ok (.v (.bool (((0 : Int) != 0 && !valueEqZero (.int n)) ||
          ((0 : Int) == 0 && valueEqZero (.int n))))) := rfl
    rw [step]
    simp [valueEqZero, h0]
  · have step : evalOp "!=" (.v (.int 0)) (.v (.int n)) =
        .ok (.v (.bool ((tyOf (.int 0) != tyOf (.int n) &&
            tyOf (.int n) != Ty.BOOL) ||
          (((0 : Int) == 0 && valueEqTrue (.int n)) ||
            ((0 : Int) != 0 && valueEqZero (.int n)))))) := rfl
    rw [step]
    simp [tyOf, valueEqTrue, valueEqZero, h1, bne]
  · have step : evalOp "!=" (.v (.int n)) (.v (.int 0)) =
        .ok (.v (.bool ((tyOf (.int n) != tyOf (.int (0 : Int)) &&
            tyOf (.int (0 : Int)) != Ty.BOOL) ||
          ((n == 0 && valueEqTrue (.int (0 : Int))) ||
            (n != 0 && valueEqZero (.int (0 : Int))))))) := rfl
    rw [step]
    simp [tyOf, valueEqTrue, valueEqZero, h0, bne]

/-- Witness for C10 at n = 2: 0 == 2 and 0 != 2 are both false, and 2 != 0
is true. -/
theorem C10_witness :
    evalOp "==" (.v (.int 0)) (.v (.int 2)) = .ok (.v (.bool false)) ∧
    evalOp "!=" (.v (.int 0)) (.v (.int 2)) = .ok (.v (.bool false)) ∧
    evalOp "!=" (.v (.int 2)) (.v (.int 0)) = .ok (.v (.bool true)) :=
  C10_int_ne_not_negation_and_asymmetric 2 (by decide) (by decide)

end BrewinV3
